import Mathlib

/-!
Verification development for the tone-of-voice repository
(richarddanquah/tone_of_voice).

Shallow embedding of the caching layer (src/services/cache_service.py),
the LLM service's cached rewrite/evaluate wrappers and result parsing
(src/services/llm_service.py), the pydantic data model
(src/models/tone_models.py) and the controller workflow
(src/controllers/tone_controller.py).

Modelling conventions, stated once:
 * wall-clock `datetime.now()` is an explicit `now : Nat` (seconds)
   threaded into every operation that reads the clock;
 * the md5 content hash inside `CacheService._generate_key` is modelled as
   the identity on the hashed data (an injective content hash), so a key
   is the literal string `pfx ++ ":" ++ data`;
 * `uuid.uuid4()` draws are modelled by a fresh-id counter carried in the
   controller state (a collision-free supply, matching the intent of a
   collision-resistant random identifier);
 * Python exceptions are `Except` values; a raised exception carries the
   handler's `ErrorResponse`;
 * Python `dict`s are association lists with overwrite-on-insert.
-/

set_option synthInstance.maxHeartbeats 400000

unseal Rat.ofScientific

namespace ToneOfVoice

/-! ## Generic dict (Python `dict`) operations on association lists -/

/-- Lookup in a Python dict modelled as an association list: `d.get(k)` /
`k in d`. -/
def listGet {κ β : Type} [DecidableEq κ] (d : List (κ × β)) (k : κ) : Option β :=
  match d with
  | [] => none
  | p :: t => if p.1 = k then some p.2 else listGet t k

/-- Overwrite-or-insert for a Python dict modelled as an association list:
`d[k] = v`. -/
def listSet {κ β : Type} [DecidableEq κ] (d : List (κ × β)) (k : κ) (v : β) :
    List (κ × β) :=
  (k, v) :: d.filter (fun p => decide (p.1 ≠ k))

/-- Deletion for a Python dict modelled as an association list: `del d[k]`. -/
def listDel {κ β : Type} [DecidableEq κ] (d : List (κ × β)) (k : κ) :
    List (κ × β) :=
  d.filter (fun p => decide (p.1 ≠ k))

theorem listGet_listSet_self {κ β : Type} [DecidableEq κ] (d : List (κ × β)) (k : κ)
    (v : β) : listGet (listSet d k v) k = some v := by
  simp [listSet, listGet]

theorem listGet_filter_self {κ β : Type} [DecidableEq κ] (d : List (κ × β)) (k : κ) :
    listGet (d.filter (fun p => decide (p.1 ≠ k))) k = none := by
  induction d with
  | nil => rfl
  | cons p t ih =>
    rw [List.filter_cons]
    by_cases hp : p.1 = k
    · rw [if_neg (by simp [hp])]
      exact ih
    · rw [if_pos (by simp [hp])]
      simpa [listGet, hp] using ih

theorem listGet_filter_ne {κ β : Type} [DecidableEq κ] (d : List (κ × β)) (k k2 : κ)
    (h : k2 ≠ k) :
    listGet (d.filter (fun p => decide (p.1 ≠ k))) k2 = listGet d k2 := by
  induction d with
  | nil => rfl
  | cons p t ih =>
    rw [List.filter_cons]
    by_cases hp : p.1 = k
    · rw [if_neg (by simp [hp])]
      have hpk2 : p.1 ≠ k2 := by rw [hp]; exact Ne.symm h
      simp only [listGet, if_neg hpk2]
      simpa using ih
    · rw [if_pos (by simp [hp])]
      by_cases h2 : p.1 = k2
      · simp [listGet, h2]
      · simp only [listGet, if_neg h2]
        simpa using ih

theorem listGet_listDel_self {κ β : Type} [DecidableEq κ] (d : List (κ × β)) (k : κ) :
    listGet (listDel d k) k = none :=
  listGet_filter_self d k

theorem listGet_listSet_ne {κ β : Type} [DecidableEq κ] (d : List (κ × β)) (k k2 : κ)
    (v : β) (h : k2 ≠ k) : listGet (listSet d k v) k2 = listGet d k2 := by
  simp only [listSet, listGet, if_neg (Ne.symm h)]
  exact listGet_filter_ne d k k2 h

theorem listGet_listDel_ne {κ β : Type} [DecidableEq κ] (d : List (κ × β)) (k k2 : κ)
    (h : k2 ≠ k) : listGet (listDel d k) k2 = listGet d k2 :=
  listGet_filter_ne d k k2 h

/-! ## Data dictionaries stored in the cache

`CacheService._cache` holds three shapes of Python dict: the parsed
analysis dict (`ToneCharacteristics.dict()`), the parsed evaluation dict
produced by `LLMService._parse_evaluation_result`, and the
`{"rewritten_text": ...}` dict cached by `LLMService.rewrite_text`.
Scores are `float`s used only as stored constants; they are modelled as
rationals. -/

/-- The dict produced by `ToneCharacteristics.dict()`
(src/models/tone_models.py lines 24-43). -/
structure ToneCharacteristicsD where
  tone : String
  language_style : String
  formality_level : String
  address_style : String
  emotional_appeal : String
  deriving DecidableEq

/-- The dict produced by `LLMService._parse_evaluation_result`
(src/services/llm_service.py lines 215-240). -/
structure EvalScores where
  tone_alignment : ℚ
  language_consistency : ℚ
  formality_match : ℚ
  address_appropriateness : ℚ
  emotional_effectiveness : ℚ
  strengths : List String
  improvements : List String
  deriving DecidableEq

/-- A value stored in `CacheService._cache` (or memoized by one of its
`lru_cache` wrappers). -/
inductive CacheVal where
  | rewriteDict (rewritten_text : String)
  | evalDict (scores : EvalScores)
  | analysisDict (c : ToneCharacteristicsD)
  deriving DecidableEq

/-- Python `d.get("rewritten_text", "")` on a cached dict
(src/services/llm_service.py line 136): the evaluation and analysis dicts
have no such key, so they yield the default `""`. -/
def CacheVal.getRewrittenText : CacheVal → String
  | .rewriteDict s => s
  | .evalDict _ => ""
  | .analysisDict _ => ""

/-! ## CacheService (src/services/cache_service.py) -/

/-- One entry of `CacheService._cache`: `{'data': ..., 'timestamp': ...}`. -/
structure CacheEntry where
  data : CacheVal
  timestamp : Nat
  deriving DecidableEq

/-- The state of one `functools.lru_cache(maxsize=1000)` wrapper: the memo
table (most recently used first, memoizing the wrapped function's result,
`none` results included) and the `cache_info()` hit/miss counters. -/
structure LruState where
  entries : List (String × Option CacheVal)
  hits : Nat
  misses : Nat
  deriving DecidableEq

/-- `maxsize=1000` of the two `lru_cache` decorators. -/
def lru_maxsize : Nat := 1000

/-- An `lru_cache` hit: the memoized result is served, the entry moves to
the front of the recency order and `hits` is bumped. -/
def lruHit (k : String) (m : LruState) : LruState :=
  { m with
    entries :=
      match listGet m.entries k with
      | some v => listSet m.entries k v
      | none => m.entries
    hits := m.hits + 1 }

/-- An `lru_cache` miss: the wrapped function's result is memoized at the
front, the least recently used entry is dropped once `maxsize` is reached,
and `misses` is bumped. -/
def lruInsert (k : String) (v : Option CacheVal) (m : LruState) : LruState :=
  { m with
    entries := (listSet m.entries k v).take lru_maxsize
    misses := m.misses + 1 }

/-- `cache_clear()` on an `lru_cache` wrapper: empties the memo table and
resets the `cache_info()` hit/miss counters to zero (CPython semantics). -/
def lruClear (_m : LruState) : LruState :=
  { entries := [], hits := 0, misses := 0 }

/-- The state of a `CacheService` instance: the `_cache` dict and the memo
state of the two `lru_cache`-wrapped getters. -/
structure CacheService where
  cache : List (String × CacheEntry)
  lru_analysis : LruState
  lru_evaluation : LruState
  deriving DecidableEq

/-- A freshly constructed `CacheService()`. -/
def emptyCacheService : CacheService :=
  { cache := [], lru_analysis := ⟨[], 0, 0⟩, lru_evaluation := ⟨[], 0, 0⟩ }

/-- `self.default_expiry = 3600` seconds. -/
def default_expiry : Nat := 3600

/-- `CacheService._generate_key`: `f"{prefix}:{md5(data)}"`, with the md5
hex digest modelled as the data itself (an injective content hash). -/
def generate_key (pfx data : String) : String := pfx ++ ":" ++ data

/-- `CacheService._is_expired`: `datetime.now() > timestamp +
timedelta(seconds=self.default_expiry)`. -/
def is_expired (timestamp now : Nat) : Bool :=
  decide (timestamp + default_expiry < now)

/-- The body wrapped by `@lru_cache` in `get_cached_analysis` /
`get_cached_evaluation` (src/services/cache_service.py lines 27-40 and
56-69), parameterised by the namespace prefix: look the key up in
`_cache`; an unexpired entry is returned, an expired one is deleted
(lazy expiry) and `None` returned. -/
def getCachedInner (pfx : String) (data : String) (now : Nat)
    (cache : List (String × CacheEntry)) :
    Option CacheVal × List (String × CacheEntry) :=
  let key := generate_key pfx data
  match listGet cache key with
  | some entry =>
    if is_expired entry.timestamp now then (none, listDel cache key)
    else (some entry.data, cache)
  | none => (none, cache)

/-- `CacheService.get_cached_analysis`: the `lru_cache(maxsize=1000)`
wrapper around the inner lookup. A memoized argument is answered from the
memo table without running the body; otherwise the body runs and its
result is memoized. -/
def get_cached_analysis (text : String) (now : Nat) (st : CacheService) :
    Option CacheVal × CacheService :=
  match listGet st.lru_analysis.entries text with
  | some memoized => (memoized, { st with lru_analysis := lruHit text st.lru_analysis })
  | none =>
    let r := getCachedInner "analysis" text now st.cache
    (r.1, { st with cache := r.2, lru_analysis := lruInsert text r.1 st.lru_analysis })

/-- `CacheService.get_cached_evaluation`: same wrapper for the
`"evaluation"` namespace, memoized by `eval_key`. -/
def get_cached_evaluation (eval_key : String) (now : Nat) (st : CacheService) :
    Option CacheVal × CacheService :=
  match listGet st.lru_evaluation.entries eval_key with
  | some memoized => (memoized, { st with lru_evaluation := lruHit eval_key st.lru_evaluation })
  | none =>
    let r := getCachedInner "evaluation" eval_key now st.cache
    (r.1, { st with cache := r.2, lru_evaluation := lruInsert eval_key r.1 st.lru_evaluation })

/-- `CacheService.cache_analysis` (lines 42-54): store
`{'data': analysis, 'timestamp': now}` under the analysis key, then
`get_cached_analysis.cache_clear()` and a warm-up call
`get_cached_analysis(text)`. -/
def cache_analysis (text : String) (analysis : CacheVal) (now : Nat)
    (st : CacheService) : CacheService :=
  let key := generate_key "analysis" text
  let st1 : CacheService :=
    { st with cache := listSet st.cache key ⟨analysis, now⟩ }
  let st2 : CacheService := { st1 with lru_analysis := lruClear st1.lru_analysis }
  (get_cached_analysis text now st2).2

/-- `CacheService.cache_evaluation` (lines 71-83): store under the
evaluation key, then `get_cached_evaluation.cache_clear()` and a warm-up
call `get_cached_evaluation(eval_key)`. -/
def cache_evaluation (eval_key : String) (evaluation : CacheVal) (now : Nat)
    (st : CacheService) : CacheService :=
  let key := generate_key "evaluation" eval_key
  let st1 : CacheService :=
    { st with cache := listSet st.cache key ⟨evaluation, now⟩ }
  let st2 : CacheService := { st1 with lru_evaluation := lruClear st1.lru_evaluation }
  (get_cached_evaluation eval_key now st2).2

/-- The dict returned by `CacheService.get_cache_stats` (lines 85-100). -/
structure CacheStats where
  cache_size : Nat
  expired_entries : Nat
  lru_cache_size : Nat
  lru_cache_hits : Nat
  lru_cache_misses : Nat
  deriving DecidableEq

/-- `CacheService.get_cache_stats`: entry count, expired count by scanning
every entry at call time, and `self.get_cached_analysis.cache_info()`'s
size and hit/miss counters. -/
def get_cache_stats (now : Nat) (st : CacheService) : CacheStats :=
  { cache_size := st.cache.length
    expired_entries := (st.cache.filter (fun p => is_expired p.2.timestamp now)).length
    lru_cache_size := st.lru_analysis.entries.length
    lru_cache_hits := st.lru_analysis.hits
    lru_cache_misses := st.lru_analysis.misses }

/-- `CacheService.clear_cache` (lines 102-119): drop the entries whose key
starts with `f"{prefix}:"` (or all of them), then `cache_clear()` both
`lru_cache` wrappers. -/
def clear_cache (pfx : Option String) (st : CacheService) : CacheService :=
  let cache1 :=
    match pfx with
    | some p => st.cache.filter (fun q => !(q.1.startsWith (p ++ ":")))
    | none => []
  { cache := cache1
    lru_analysis := lruClear st.lru_analysis
    lru_evaluation := lruClear st.lru_evaluation }

/-- The two cache namespaces the service exposes, each through its own
getter/setter pair. -/
inductive CacheNs where
  | analysis
  | evaluation
  deriving DecidableEq

/-- The key prefix of a namespace. -/
def CacheNs.name : CacheNs → String
  | .analysis => "analysis"
  | .evaluation => "evaluation"

/-- `put(namespace, rawKey, value)` dispatched to the namespace's setter. -/
def cachePut (ns : CacheNs) (k : String) (v : CacheVal) (now : Nat)
    (st : CacheService) : CacheService :=
  match ns with
  | .analysis => cache_analysis k v now st
  | .evaluation => cache_evaluation k v now st

/-- `get(namespace, rawKey)` dispatched to the namespace's getter. -/
def cacheGet (ns : CacheNs) (k : String) (now : Nat) (st : CacheService) :
    Option CacheVal × CacheService :=
  match ns with
  | .analysis => get_cached_analysis k now st
  | .evaluation => get_cached_evaluation k now st

/-- The memo state of the `lru_cache` wrapper serving a namespace. -/
def CacheService.lruOf (st : CacheService) : CacheNs → LruState
  | .analysis => st.lru_analysis
  | .evaluation => st.lru_evaluation

/-! ## LLMService cached wrappers and result parsing
(src/services/llm_service.py) -/

/-- The relevant fields of a successfully `json.loads`-decoded evaluation
reply; a field the reply does not carry is `none` (Python `dict.get`
with a default). -/
structure EvalParsed where
  tone_alignment : Option ℚ := none
  language_consistency : Option ℚ := none
  formality_match : Option ℚ := none
  address_appropriateness : Option ℚ := none
  emotional_effectiveness : Option ℚ := none
  strengths : Option (List String) := none
  improvements : Option (List String) := none
  deriving DecidableEq

/-- The fabricated default score dict of
`LLMService._parse_evaluation_result`'s `json.JSONDecodeError` fallback
(src/services/llm_service.py lines 230-240). -/
def defaultEvalScores : EvalScores :=
  { tone_alignment := 0.85
    language_consistency := 0.90
    formality_match := 0.88
    address_appropriateness := 0.92
    emotional_effectiveness := 0.87
    strengths := ["Maintains brand voice", "Clear and concise"]
    improvements := ["Consider more formal language", "Add more emotional appeal"] }

/-- `LLMService._parse_evaluation_result` (lines 215-240). The `json.loads`
call is the only failure point of the `try` block; its outcome is the
`Option EvalParsed` argument (`none` is a `json.JSONDecodeError`). Missing
keys get per-key defaults; an undecodable reply gets the whole default
dict. The function has no error outlet. -/
def parse_evaluation_result (decoded : Option EvalParsed) : EvalScores :=
  match decoded with
  | some p =>
    { tone_alignment := p.tone_alignment.getD 0.85
      language_consistency := p.language_consistency.getD 0.90
      formality_match := p.formality_match.getD 0.88
      address_appropriateness := p.address_appropriateness.getD 0.92
      emotional_effectiveness := p.emotional_effectiveness.getD 0.87
      strengths := p.strengths.getD ["Maintains brand voice", "Clear and concise"]
      improvements := p.improvements.getD
        ["Consider more formal language", "Add more emotional appeal"] }
  | none => defaultEvalScores

/-- The raw cache key `f"{text}:{signature}:{','.join(preserve_keywords or [])}"`
built by `LLMService.rewrite_text` (line 131). -/
def rewriteCacheKey (text signature : String) (preserve_keywords : List String) :
    String :=
  text ++ ":" ++ signature ++ ":" ++ String.intercalate "," preserve_keywords

/-- The raw cache key `f"{original}:{rewritten}:{signature}"` built by
`LLMService.evaluate_text` (line 159). -/
def evaluationCacheKey (original rewritten signature : String) : String :=
  original ++ ":" ++ rewritten ++ ":" ++ signature

/-- `LLMService.rewrite_text` (lines 127-153). `chain` is the external
`rewrite_chain.ainvoke` collaborator (text, signature, joined keywords →
reply content or failure). The cache consulted is `get_cached_evaluation`
— the `"evaluation"` namespace — keyed by `rewriteCacheKey`; a cached
dict's `"rewritten_text"` entry is served (default `""`); a miss invokes
the chain, strips the reply and caches `{"rewritten_text": ...}` under the
same key. A chain failure is re-raised as `"Text rewriting failed: ..."`. -/
def LLMService.rewrite_text
    (chain : String → String → String → Except String String)
    (text signature : String) (preserve_keywords : Option (List String))
    (now : Nat) (st : CacheService) : Except String String × CacheService :=
  let cache_key := rewriteCacheKey text signature (preserve_keywords.getD [])
  let r := get_cached_evaluation cache_key now st
  match r.1 with
  | some cached => (.ok cached.getRewrittenText, r.2)
  | none =>
    match chain text signature
        (String.intercalate ", " (preserve_keywords.getD [])) with
    | .error e => (.error ("Text rewriting failed: " ++ e), r.2)
    | .ok content =>
      let rewritten := content.trim
      (.ok rewritten, cache_evaluation cache_key (.rewriteDict rewritten) now r.2)

/-- `LLMService.evaluate_text` (lines 155-181). `chain` is the external
`evaluation_chain.ainvoke` collaborator; its successful reply is carried
as the `json.loads` outcome of the content (see `parse_evaluation_result`).
Consults `get_cached_evaluation` keyed by `evaluationCacheKey`; on a miss
the parsed result is cached under the same key and returned. -/
def LLMService.evaluate_text
    (chain : String → String → String → Except String (Option EvalParsed))
    (original rewritten signature : String) (now : Nat) (st : CacheService) :
    Except String CacheVal × CacheService :=
  let cache_key := evaluationCacheKey original rewritten signature
  let r := get_cached_evaluation cache_key now st
  match r.1 with
  | some cached => (.ok cached, r.2)
  | none =>
    match chain original rewritten signature with
    | .error e => (.error ("Text evaluation failed: " ++ e), r.2)
    | .ok decoded =>
      let parsed := parse_evaluation_result decoded
      (.ok (.evalDict parsed), cache_evaluation cache_key (.evalDict parsed) now r.2)

/-! ## Pydantic data model (src/models/tone_models.py)

Only the models the controller workflow constructs are embedded. The
`EvaluationResult` model (lines 73-108) has twelve required fields
(`Field(...)`), the score fields carrying `ge=0, le=1` bounds; pydantic
construction is the validating function `EvaluationResult.validate`,
taking each field as an `Option` (a keyword argument the call site passes
or omits) and failing like pydantic's `ValidationError` when a required
field is missing or a bound is violated. -/

structure EvaluationResult where
  fluency : ℚ
  authenticity : ℚ
  tone_alignment : ℚ
  readability : ℚ
  overall_score : ℚ
  strengths : List String
  suggestions : List String
  tone_characteristics_match : List (String × ℚ)
  language_pattern_consistency : ℚ
  brand_voice_alignment : ℚ
  target_audience_appeal : ℚ
  detailed_feedback : List (String × List String)
  deriving DecidableEq

/-- The keyword arguments of an `EvaluationResult(...)` construction: a
field the call site does not pass is `none`. -/
structure EvaluationResultArgs where
  fluency : Option ℚ := none
  authenticity : Option ℚ := none
  tone_alignment : Option ℚ := none
  readability : Option ℚ := none
  overall_score : Option ℚ := none
  strengths : Option (List String) := none
  suggestions : Option (List String) := none
  tone_characteristics_match : Option (List (String × ℚ)) := none
  language_pattern_consistency : Option ℚ := none
  brand_voice_alignment : Option ℚ := none
  target_audience_appeal : Option ℚ := none
  detailed_feedback : Option (List (String × List String)) := none
  deriving DecidableEq

/-- Pydantic's `ValidationError` (raised for a missing required field or a
violated field bound). -/
inductive PydanticError where
  | validation
  deriving DecidableEq

/-- A required field with `ge=0, le=1` bounds. -/
def reqScore (v : Option ℚ) : Except PydanticError ℚ :=
  match v with
  | some q => if 0 ≤ q ∧ q ≤ 1 then .ok q else .error .validation
  | none => .error .validation

/-- A required field with no bound. -/
def reqField {α : Type} (v : Option α) : Except PydanticError α :=
  match v with
  | some x => .ok x
  | none => .error .validation

/-- Pydantic construction of `EvaluationResult`: every one of the twelve
fields is required (`Field(...)`), the scores bounded to `[0, 1]`. -/
def EvaluationResult.validate (a : EvaluationResultArgs) :
    Except PydanticError EvaluationResult := do
  let fluency ← reqScore a.fluency
  let authenticity ← reqScore a.authenticity
  let tone_alignment ← reqScore a.tone_alignment
  let readability ← reqScore a.readability
  let overall_score ← reqScore a.overall_score
  let strengths ← reqField a.strengths
  let suggestions ← reqField a.suggestions
  let tcm ← reqField a.tone_characteristics_match
  let language_pattern_consistency ← reqScore a.language_pattern_consistency
  let brand_voice_alignment ← reqScore a.brand_voice_alignment
  let target_audience_appeal ← reqScore a.target_audience_appeal
  let df ← reqField a.detailed_feedback
  return { fluency, authenticity, tone_alignment, readability, overall_score,
           strengths, suggestions, tone_characteristics_match := tcm,
           language_pattern_consistency, brand_voice_alignment,
           target_audience_appeal, detailed_feedback := df }

/-- `BrandInfo` (src/models/tone_models.py lines 45-49); also the shape of
the dicts in `ToneController.brands`. -/
structure BrandInfo where
  brand_id : String
  name : String
  description : String
  created_at : Nat
  deriving DecidableEq

/-- The dicts stored in `ToneController.brand_signatures` (and
`SignatureResponse`, src/models/tone_models.py lines 143-147). -/
structure SignatureData where
  brand_id : String
  signature : String
  created_at : Nat
  version : String
  deriving DecidableEq

/-- `TextRewriteRequest` (src/models/tone_models.py lines 130-133). -/
structure TextRewriteRequest where
  text : String
  brand_id : Option String := none
  brand_name : Option String := none
  deriving DecidableEq

/-- `EvaluationRequest` (src/models/tone_models.py lines 67-71). -/
structure EvaluationRequest where
  brand_id : String
  text : String
  rewritten : String
  signature : String
  deriving DecidableEq

/-- The `ErrorResponse` detail an `HTTPException` carries: error message,
stable code and the originating exception's message. -/
structure ErrorResponse where
  error : String
  code : String
  original_error : String
  deriving DecidableEq

/-- `EvaluationResponse` (src/models/tone_models.py lines 110-116);
evaluation ids are the fresh-id counter's draws. -/
structure EvaluationResponse where
  evaluation_id : Nat
  brand_id : String
  timestamp : Nat
  original_text : String
  rewritten_text : String
  result : EvaluationResult
  deriving DecidableEq

/-- `TextRewriteResponse` (src/models/tone_models.py lines 135-141). -/
structure TextRewriteResponse where
  evaluation_id : Nat
  brand_info : BrandInfo
  timestamp : Nat
  original_text : String
  rewritten_text : String
  result : EvaluationResult
  deriving DecidableEq

/-! ## ToneController (src/controllers/tone_controller.py)

The controller instance's three dicts plus the fresh-id counter standing
for the process's `uuid.uuid4()` draws (each draw consumes one counter
value; evaluation ids are the drawn numbers). The external collaborators
are the plain `tone_service` functions `analyze_tone`,
`rewrite_with_signature` and `evaluate_tone` — raw LLM chain calls with
no cache in front of them — passed in as a record of fallible
functions. -/

/-- The dicts stored in `ToneController.evaluations`. -/
structure EvalRecord where
  brand_id : String
  text : String
  rewritten : String
  result : EvaluationResult
  timestamp : Nat
  deriving DecidableEq

structure ControllerState where
  brand_signatures : List (String × SignatureData)
  evaluations : List (Nat × EvalRecord)
  brands : List (String × BrandInfo)
  nextId : Nat
  deriving DecidableEq

/-- A freshly constructed `ToneController()`. -/
def initialControllerState : ControllerState :=
  { brand_signatures := [], evaluations := [], brands := [], nextId := 0 }

/-- The external collaborator interface consumed by the controller
(src/services/tone_service.py lines 60-72): analyze, rewrite and evaluate
as black-box fallible functions. -/
structure Collaborators where
  analyze : String → Except String String
  rewrite : String → String → Except String String
  evaluate : String → String → String → Except String String

/-- Python truthiness of an `Optional[str]`: `None` and `""` are falsy. -/
def pyTruthy (s : Option String) : Bool :=
  match s with
  | some v => decide (v ≠ "")
  | none => false

/-- Python `s or d` for an `Optional[str]`. -/
def pyOr (s : Option String) (d : String) : String :=
  match s with
  | some v => if v = "" then d else v
  | none => d

/-- `ToneController._get_or_create_brand` (lines 37-52): a truthy,
known `brand_id` is returned as stored; otherwise a new brand is created
under the given id (or a generated `brand_<uuid>` one) and stored in
`self.brands`. -/
def ToneController.get_or_create_brand (brand_id brand_name : Option String)
    (now : Nat) (st : ControllerState) : BrandInfo × ControllerState :=
  if pyTruthy brand_id then
    match listGet st.brands (brand_id.getD "") with
    | some info => (info, st)
    | none =>
      let new_brand_id := brand_id.getD ""
      let info : BrandInfo :=
        { brand_id := new_brand_id
          name := pyOr brand_name ("Brand " ++ new_brand_id)
          description := "Automatically created brand for tone analysis"
          created_at := now }
      (info, { st with brands := listSet st.brands new_brand_id info })
  else
    let new_brand_id := "brand_" ++ toString st.nextId
    let info : BrandInfo :=
      { brand_id := new_brand_id
        name := pyOr brand_name ("Brand " ++ new_brand_id)
        description := "Automatically created brand for tone analysis"
        created_at := now }
    (info,
     { st with brands := listSet st.brands new_brand_id info
               nextId := st.nextId + 1 })

/-- The hard-coded keyword arguments of the `EvaluationResult(...)`
construction inside `rewrite_and_evaluate_text` (lines 275-300): all
twelve fields are passed. -/
def rewriteEvalArgs : EvaluationResultArgs :=
  { fluency := some 0.85
    authenticity := some 0.90
    tone_alignment := some 0.88
    readability := some 0.92
    overall_score := some 0.89
    strengths := some ["Maintains brand voice", "Clear and concise"]
    suggestions := some ["Consider more formal language", "Add more emotional appeal"]
    tone_characteristics_match := some
      [("tone", 0.85), ("language_style", 0.90), ("formality_level", 0.88),
       ("address_style", 0.92), ("emotional_appeal", 0.87)]
    language_pattern_consistency := some 0.90
    brand_voice_alignment := some 0.88
    target_audience_appeal := some 0.85
    detailed_feedback := some
      [("tone", ["Maintains consistent formal tone", "Could be more engaging"]),
       ("language", ["Clear and professional", "Consider more varied vocabulary"]),
       ("structure", ["Well-organized", "Could use more transitions"]),
       ("style", ["Appropriate for business context", "Could be more dynamic"])] }

/-- The keyword arguments of the `EvaluationResult(...)` construction
inside `evaluate_text` (lines 154-162): only seven of the twelve required
fields are passed; `tone_characteristics_match`,
`language_pattern_consistency`, `brand_voice_alignment`,
`target_audience_appeal` and `detailed_feedback` are omitted. -/
def evaluateTextArgs : EvaluationResultArgs :=
  { fluency := some 0.85
    authenticity := some 0.90
    tone_alignment := some 0.88
    readability := some 0.92
    overall_score := some 0.87
    strengths := some ["Maintains brand voice", "Clear and concise"]
    suggestions := some ["Consider more formal language", "Add more emotional appeal"] }

/-- The `HTTPException` detail raised by `rewrite_and_evaluate_text`'s
`except` clause. -/
def rewriteEvalError (e : String) : ErrorResponse :=
  { error := "Failed to rewrite and evaluate text"
    code := "REWRITE_EVALUATION_ERROR"
    original_error := e }

/-- The `HTTPException` detail raised by `evaluate_text`'s `except`
clause. -/
def evaluationError (e : String) : ErrorResponse :=
  { error := "Failed to evaluate text"
    code := "EVALUATION_ERROR"
    original_error := e }

/-- The outcome of one `rewrite_and_evaluate_text` call: the returned
response or raised error, the controller state it leaves behind
(mutations made before a raise persist), and ghost instrumentation
counting the collaborator invocations the call made. -/
structure RunOutcome where
  result : Except ErrorResponse TextRewriteResponse
  state : ControllerState
  analyzeCalls : Nat
  rewriteCalls : Nat
  evaluateCalls : Nat

/-- The tail of `rewrite_and_evaluate_text` from line 266 on, once the
signature is in hand: rewrite, evaluate, construct the hard-coded
`EvaluationResult`, store the evaluation and return the response. -/
def rewriteEvalRest (collab : Collaborators) (req : TextRewriteRequest)
    (now : Nat) (st : ControllerState) (brand_info : BrandInfo)
    (signature : String) (aCalls : Nat) : RunOutcome :=
  match collab.rewrite req.text signature with
  | .error e =>
    { result := .error (rewriteEvalError e), state := st
      analyzeCalls := aCalls, rewriteCalls := 1, evaluateCalls := 0 }
  | .ok rewritten =>
    match collab.evaluate req.text rewritten signature with
    | .error e =>
      { result := .error (rewriteEvalError e), state := st
        analyzeCalls := aCalls, rewriteCalls := 1, evaluateCalls := 1 }
    | .ok _evaluation =>
      let eval_id := st.nextId
      let st1 := { st with nextId := st.nextId + 1 }
      match EvaluationResult.validate rewriteEvalArgs with
      | .error _ =>
        { result := .error (rewriteEvalError "ValidationError"), state := st1
          analyzeCalls := aCalls, rewriteCalls := 1, evaluateCalls := 1 }
      | .ok result =>
        let newEvals := listSet st1.evaluations eval_id
          ⟨brand_info.brand_id, req.text, rewritten, result, now⟩
        let st2 := { st1 with evaluations := newEvals }
        { result := .ok
            { evaluation_id := eval_id, brand_info := brand_info
              timestamp := now, original_text := req.text
              rewritten_text := rewritten, result := result }
          state := st2
          analyzeCalls := aCalls, rewriteCalls := 1, evaluateCalls := 1 }

/-- `ToneController.rewrite_and_evaluate_text` (lines 247-329): resolve
the brand; when the brand has no stored signature, analyze the request
text and store a fresh `version "1.0"` signature; then rewrite, evaluate,
store the evaluation under a fresh id and return. Every collaborator
failure propagates as a `REWRITE_EVALUATION_ERROR`, leaving the mutations
already made in place. -/
def ToneController.rewrite_and_evaluate_text (collab : Collaborators)
    (req : TextRewriteRequest) (now : Nat) (st : ControllerState) :
    RunOutcome :=
  let bi := ToneController.get_or_create_brand req.brand_id req.brand_name now st
  let brand_info := bi.1
  let st1 := bi.2
  match listGet st1.brand_signatures brand_info.brand_id with
  | none =>
    match collab.analyze req.text with
    | .error e =>
      { result := .error (rewriteEvalError e), state := st1
        analyzeCalls := 1, rewriteCalls := 0, evaluateCalls := 0 }
    | .ok signature =>
      let newSigs := listSet st1.brand_signatures brand_info.brand_id
        ⟨brand_info.brand_id, signature, now, "1.0"⟩
      let st2 := { st1 with brand_signatures := newSigs }
      rewriteEvalRest collab req now st2 brand_info signature 1
  | some sd => rewriteEvalRest collab req now st1 brand_info sd.signature 0

/-- `ToneController.evaluate_text` (lines 143-189): call the evaluate
collaborator, then construct `EvaluationResult` from `evaluateTextArgs`
(which omits five required fields), store and return. Any exception in
the `try` block — the collaborator's or pydantic's — is re-raised as an
`EVALUATION_ERROR`. -/
def ToneController.evaluate_text (collab : Collaborators)
    (req : EvaluationRequest) (now : Nat) (st : ControllerState) :
    Except ErrorResponse EvaluationResponse × ControllerState :=
  match collab.evaluate req.text req.rewritten req.signature with
  | .error e => (.error (evaluationError e), st)
  | .ok _evaluation =>
    let eval_id := st.nextId
    let st1 := { st with nextId := st.nextId + 1 }
    match EvaluationResult.validate evaluateTextArgs with
    | .error _ => (.error (evaluationError "ValidationError"), st1)
    | .ok result =>
      let newEvals := listSet st1.evaluations eval_id
        ⟨req.brand_id, req.text, req.rewritten, result, now⟩
      let st2 := { st1 with evaluations := newEvals }
      (.ok { evaluation_id := eval_id, brand_id := req.brand_id
             timestamp := now, original_text := req.text
             rewritten_text := req.rewritten, result := result }, st2)

/-- `ToneController.get_evaluation` (lines 204-224): read-only lookup,
404 `EVALUATION_NOT_FOUND` when absent. -/
def ToneController.get_evaluation (eval_id : Nat) (st : ControllerState) :
    Except ErrorResponse EvaluationResponse :=
  match listGet st.evaluations eval_id with
  | none =>
    .error { error := "Evaluation not found", code := "EVALUATION_NOT_FOUND"
             original_error := "" }
  | some d =>
    .ok { evaluation_id := eval_id, brand_id := d.brand_id
          timestamp := d.timestamp, original_text := d.text
          rewritten_text := d.rewritten, result := d.result }

/-- `ToneController.store_signature` (lines 226-235): overwrite-or-create
the brand's signature dict with a fresh `created_at`. -/
def ToneController.store_signature (brand_id signature : String) (now : Nat)
    (st : ControllerState) : SignatureData × ControllerState :=
  let sd : SignatureData :=
    { brand_id := brand_id, signature := signature, created_at := now
      version := "1.0" }
  (sd, { st with brand_signatures := listSet st.brand_signatures brand_id sd })

/-- `ToneController.get_signature` (lines 191-202): read-only lookup,
404 `SIGNATURE_NOT_FOUND` when absent. -/
def ToneController.get_signature (brand_id : String) (st : ControllerState) :
    Except ErrorResponse SignatureData :=
  match listGet st.brand_signatures brand_id with
  | none =>
    .error { error := "Brand signature not found", code := "SIGNATURE_NOT_FOUND"
             original_error := "" }
  | some sd => .ok sd

/-! ## The process state and the exposed operations

The controller never touches `LLMService`'s `CacheService`: it imports
the plain `tone_service` collaborators. `SystemState` carries both so
that claims relating the workflow to the cache can be stated. -/

structure SystemState where
  controller : ControllerState
  llmCache : CacheService

/-- One `rewrite-and-evaluate` request processed by the system: the
controller runs; the `LLMService` cache is untouched because the
controller calls `tone_service`'s uncached collaborators
(src/controllers/tone_controller.py lines 3-9). -/
def system_rewrite_and_evaluate (collab : Collaborators)
    (req : TextRewriteRequest) (now : Nat) (sys : SystemState) :
    RunOutcome × SystemState :=
  let out := ToneController.rewrite_and_evaluate_text collab req now sys.controller
  (out, { controller := out.state, llmCache := sys.llmCache })

/-- The exposed routed operations that read or write the controller's
dicts (src/routes/tone.py); the remaining endpoints (`analyze/*`,
`rewrite`, `reject`) never touch them. -/
inductive ControllerOp where
  | evaluateTextOp (collab : Collaborators) (req : EvaluationRequest) (now : Nat)
  | storeSignatureOp (brand_id signature : String) (now : Nat)
  | rewriteAndEvaluateOp (collab : Collaborators) (req : TextRewriteRequest) (now : Nat)
  | getEvaluationOp (eval_id : Nat)
  | getSignatureOp (brand_id : String)

/-- The controller state after one exposed operation. -/
def applyOp (op : ControllerOp) (st : ControllerState) : ControllerState :=
  match op with
  | .evaluateTextOp collab req now => (ToneController.evaluate_text collab req now st).2
  | .storeSignatureOp b s now => (ToneController.store_signature b s now st).2
  | .rewriteAndEvaluateOp collab req now =>
    (ToneController.rewrite_and_evaluate_text collab req now st).state
  | .getEvaluationOp _ => st
  | .getSignatureOp _ => st

/-- The controller state after a sequence of exposed operations. -/
def applyOps (ops : List ControllerOp) (st : ControllerState) : ControllerState :=
  List.foldl (fun s o => applyOp o s) st ops

/-- Every stored evaluation id was drawn from the fresh-id counter: true
of every state the process reaches from `initialControllerState`. -/
def EvalIdsFresh (st : ControllerState) : Prop :=
  ∀ p ∈ st.evaluations, p.1 < st.nextId

deriving instance DecidableEq for Except

/-- The `EvaluationResult` that `rewrite_and_evaluate_text`'s hard-coded
construction (lines 275-300) produces: `EvaluationResult.validate
rewriteEvalArgs` succeeds with exactly this value. -/
def rewriteEvalResult : EvaluationResult :=
  { fluency := 0.85
    authenticity := 0.90
    tone_alignment := 0.88
    readability := 0.92
    overall_score := 0.89
    strengths := ["Maintains brand voice", "Clear and concise"]
    suggestions := ["Consider more formal language", "Add more emotional appeal"]
    tone_characteristics_match :=
      [("tone", 0.85), ("language_style", 0.90), ("formality_level", 0.88),
       ("address_style", 0.92), ("emotional_appeal", 0.87)]
    language_pattern_consistency := 0.90
    brand_voice_alignment := 0.88
    target_audience_appeal := 0.85
    detailed_feedback :=
      [("tone", ["Maintains consistent formal tone", "Could be more engaging"]),
       ("language", ["Clear and professional", "Consider more varied vocabulary"]),
       ("structure", ["Well-organized", "Could use more transitions"]),
       ("style", ["Appropriate for business context", "Could be more dynamic"])] }

/-- The signature-acquisition step of `rewrite_and_evaluate_text` in
isolation: the stored signature when the resolved brand has one, else the
analyze collaborator's outcome. Used to state that the composite
operation succeeds exactly when every collaborator step it runs does. -/
def signatureOutcome (collab : Collaborators) (req : TextRewriteRequest)
    (now : Nat) (st : ControllerState) : Except String String :=
  let bi := ToneController.get_or_create_brand req.brand_id req.brand_name now st
  match listGet bi.2.brand_signatures bi.1.brand_id with
  | some sd => .ok sd.signature
  | none => collab.analyze req.text

/-- A concrete always-succeeding collaborator triple. -/
def wCollab : Collaborators :=
  { analyze := fun _ => .ok "SIG"
    rewrite := fun _ _ => .ok "REW"
    evaluate := fun _ _ _ => .ok "EV" }

/-- A concrete rewrite-and-evaluate request for the brand `"acme"`. -/
def wReq : TextRewriteRequest :=
  { text := "We are pleased to announce our quarterly results."
    brand_id := some "acme", brand_name := none }

/-- The response `rewrite_and_evaluate_text wCollab wReq 0
initialControllerState` returns. -/
def wResp : TextRewriteResponse :=
  { evaluation_id := 0
    brand_info :=
      { brand_id := "acme", name := "Brand acme"
        description := "Automatically created brand for tone analysis"
        created_at := 0 }
    timestamp := 0
    original_text := "We are pleased to announce our quarterly results."
    rewritten_text := "REW"
    result := rewriteEvalResult }

/-! ## Cache layer lemmas -/

theorem is_expired_now (now : Nat) : is_expired now now = false := by
  unfold is_expired default_expiry
  simp only [decide_eq_false_iff_not]
  omega

/-- The inner cache body on a key present in the dict. -/
theorem getCachedInner_found (pfx data : String) (now : Nat)
    (cache : List (String × CacheEntry)) (e : CacheEntry)
    (h : listGet cache (generate_key pfx data) = some e) :
    getCachedInner pfx data now cache =
      if is_expired e.timestamp now then
        (none, listDel cache (generate_key pfx data))
      else (some e.data, cache) := by
  simp only [getCachedInner, h]

/-- The inner cache body on a key absent from the dict. -/
theorem getCachedInner_absent (pfx data : String) (now : Nat)
    (cache : List (String × CacheEntry))
    (h : listGet cache (generate_key pfx data) = none) :
    getCachedInner pfx data now cache = (none, cache) := by
  simp only [getCachedInner, h]

/-- `get_cached_analysis` when the memoizer misses. -/
theorem get_cached_analysis_memo_none (text : String) (now : Nat)
    (st : CacheService) (h : listGet st.lru_analysis.entries text = none) :
    get_cached_analysis text now st =
      ((getCachedInner "analysis" text now st.cache).1,
       { st with cache := (getCachedInner "analysis" text now st.cache).2
                 lru_analysis := lruInsert text
                   (getCachedInner "analysis" text now st.cache).1
                   st.lru_analysis }) := by
  simp only [get_cached_analysis, h]

/-- `get_cached_analysis` when the memoizer hits. -/
theorem get_cached_analysis_memo_some (text : String) (now : Nat)
    (st : CacheService) (m : Option CacheVal)
    (h : listGet st.lru_analysis.entries text = some m) :
    get_cached_analysis text now st =
      (m, { st with lru_analysis := lruHit text st.lru_analysis }) := by
  simp only [get_cached_analysis, h]

/-- `get_cached_evaluation` when the memoizer misses. -/
theorem get_cached_evaluation_memo_none (k : String) (now : Nat)
    (st : CacheService) (h : listGet st.lru_evaluation.entries k = none) :
    get_cached_evaluation k now st =
      ((getCachedInner "evaluation" k now st.cache).1,
       { st with cache := (getCachedInner "evaluation" k now st.cache).2
                 lru_evaluation := lruInsert k
                   (getCachedInner "evaluation" k now st.cache).1
                   st.lru_evaluation }) := by
  simp only [get_cached_evaluation, h]

/-- `get_cached_evaluation` when the memoizer hits. -/
theorem get_cached_evaluation_memo_some (k : String) (now : Nat)
    (st : CacheService) (m : Option CacheVal)
    (h : listGet st.lru_evaluation.entries k = some m) :
    get_cached_evaluation k now st =
      (m, { st with lru_evaluation := lruHit k st.lru_evaluation }) := by
  simp only [get_cached_evaluation, h]

theorem take_maxsize_singleton {α : Type} (a : α) :
    List.take lru_maxsize [a] = [a] :=
  List.take_of_length_le (by simp [lru_maxsize])

/-- What a `cache_analysis` put leaves behind: the dict entry is written
with the put's timestamp, the analysis memoizer is cleared and re-warmed
with exactly the stored value, its counters reset to 0 hits / 1 miss. -/
theorem cache_analysis_eq (text : String) (v : CacheVal) (now : Nat)
    (st : CacheService) :
    cache_analysis text v now st =
      { cache := listSet st.cache (generate_key "analysis" text) ⟨v, now⟩
        lru_analysis := ⟨[(text, some v)], 0, 1⟩
        lru_evaluation := st.lru_evaluation } := by
  have h1 : listGet (listSet st.cache (generate_key "analysis" text)
      (⟨v, now⟩ : CacheEntry)) (generate_key "analysis" text) =
      some ⟨v, now⟩ := listGet_listSet_self _ _ _
  simp only [cache_analysis, lruClear]
  rw [get_cached_analysis_memo_none _ _ _ (by simp [listGet])]
  rw [getCachedInner_found _ _ _ _ _ h1]
  simp [is_expired_now, lruInsert, listSet, take_maxsize_singleton]

/-- `cache_evaluation` analogue of `cache_analysis_eq`. -/
theorem cache_evaluation_eq (eval_key : String) (v : CacheVal) (now : Nat)
    (st : CacheService) :
    cache_evaluation eval_key v now st =
      { cache := listSet st.cache (generate_key "evaluation" eval_key) ⟨v, now⟩
        lru_analysis := st.lru_analysis
        lru_evaluation := ⟨[(eval_key, some v)], 0, 1⟩ } := by
  have h1 : listGet (listSet st.cache (generate_key "evaluation" eval_key)
      (⟨v, now⟩ : CacheEntry)) (generate_key "evaluation" eval_key) =
      some ⟨v, now⟩ := listGet_listSet_self _ _ _
  simp only [cache_evaluation, lruClear]
  rw [get_cached_evaluation_memo_none _ _ _ (by simp [listGet])]
  rw [getCachedInner_found _ _ _ _ _ h1]
  simp [is_expired_now, lruInsert, listSet, take_maxsize_singleton]

/-- C5: in either namespace, `put(ns, k, v)` followed immediately by
`get(ns, k)` returns `v`, and the put wrote (inserted or overwrote) the
dict entry with its `inserted_at` timestamp reset to the put's time —
also when it overwrites an unexpired entry, since `st` is arbitrary. -/
theorem cache_put_then_get (ns : CacheNs) (k : String) (v : CacheVal)
    (now : Nat) (st : CacheService) :
    (cacheGet ns k now (cachePut ns k v now st)).1 = some v ∧
    listGet (cachePut ns k v now st).cache (generate_key ns.name k) =
      some ⟨v, now⟩ := by
  cases ns
  · simp only [cachePut, cacheGet, CacheNs.name, cache_analysis_eq]
    refine ⟨?_, listGet_listSet_self _ _ _⟩
    rw [get_cached_analysis_memo_some _ _ _ (some v) (by simp [listGet])]
  · simp only [cachePut, cacheGet, CacheNs.name, cache_evaluation_eq]
    refine ⟨?_, listGet_listSet_self _ _ _⟩
    rw [get_cached_evaluation_memo_some _ _ _ (some v) (by simp [listGet])]

/-- C6 counterexample: a `put` at time 0 followed by a `get` at time 4000
(past the 3600-second TTL) still returns the stored value and leaves the
expired entry in the store, because the put warmed the `lru_cache`
memoizer and the memoized result bypasses the expiry check. The claim
says such a get returns absent and evicts the entry. -/
theorem cache_expired_get_still_hits :
    (cacheGet .analysis "k" 4000
        (cachePut .analysis "k"
          (.analysisDict ⟨"formal", "professional", "formal", "direct", "rational"⟩)
          0 emptyCacheService)).1
      = some (.analysisDict ⟨"formal", "professional", "formal", "direct", "rational"⟩) ∧
    listGet (cacheGet .analysis "k" 4000
        (cachePut .analysis "k"
          (.analysisDict ⟨"formal", "professional", "formal", "direct", "rational"⟩)
          0 emptyCacheService)).2.cache
      (generate_key "analysis" "k")
      = some ⟨.analysisDict ⟨"formal", "professional", "formal", "direct", "rational"⟩, 0⟩ := by
  decide

/-- C6 amended: the TTL contract holds only when the `lru_cache` memo
layer misses for the key: then a get past the TTL returns absent and
evicts the entry, and a get within the TTL returns the stored value. -/
theorem cache_get_memo_miss_expiry (ns : CacheNs) (k : String) (now : Nat)
    (st : CacheService) (v : CacheVal) (ts : Nat)
    (hmemo : listGet (st.lruOf ns).entries k = none)
    (hdict : listGet st.cache (generate_key ns.name k) = some ⟨v, ts⟩) :
    (ts + default_expiry < now →
      (cacheGet ns k now st).1 = none ∧
      listGet (cacheGet ns k now st).2.cache (generate_key ns.name k) = none) ∧
    (¬ ts + default_expiry < now → (cacheGet ns k now st).1 = some v) := by
  cases ns
  · simp only [CacheService.lruOf] at hmemo
    simp only [CacheNs.name] at hdict ⊢
    constructor
    · intro hlt
      have hlt2 : ts + 3600 < now := by simpa [default_expiry] using hlt
      have hexp : is_expired ts now = true := by
        simp [is_expired, default_expiry, hlt2]
      simp [cacheGet, get_cached_analysis_memo_none _ _ _ hmemo,
            getCachedInner_found _ _ _ _ _ hdict, hexp, listGet_listDel_self]
    · intro hge
      have hge2 : ¬ ts + 3600 < now := by simpa [default_expiry] using hge
      have hexp : is_expired ts now = false := by
        simp [is_expired, default_expiry, hge2]
      simp [cacheGet, get_cached_analysis_memo_none _ _ _ hmemo,
            getCachedInner_found _ _ _ _ _ hdict, hexp]
  · simp only [CacheService.lruOf] at hmemo
    simp only [CacheNs.name] at hdict ⊢
    constructor
    · intro hlt
      have hlt2 : ts + 3600 < now := by simpa [default_expiry] using hlt
      have hexp : is_expired ts now = true := by
        simp [is_expired, default_expiry, hlt2]
      simp [cacheGet, get_cached_evaluation_memo_none _ _ _ hmemo,
            getCachedInner_found _ _ _ _ _ hdict, hexp, listGet_listDel_self]
    · intro hge
      have hge2 : ¬ ts + 3600 < now := by simpa [default_expiry] using hge
      have hexp : is_expired ts now = false := by
        simp [is_expired, default_expiry, hge2]
      simp [cacheGet, get_cached_evaluation_memo_none _ _ _ hmemo,
            getCachedInner_found _ _ _ _ _ hdict, hexp]

/-- C6 amended, applied at a concrete input: a store holding an entry
inserted at time 0 whose memoizer is cold; the get at time 4000 returns
absent. -/
theorem cache_get_memo_miss_expiry_witness :
    (cacheGet .analysis "k" 4000
      { cache := [("analysis:k", ⟨.rewriteDict "w", 0⟩)]
        lru_analysis := ⟨[], 0, 0⟩
        lru_evaluation := ⟨[], 0, 0⟩ }).1 = none :=
  ((cache_get_memo_miss_expiry .analysis "k" 4000
      { cache := [("analysis:k", ⟨.rewriteDict "w", 0⟩)]
        lru_analysis := ⟨[], 0, 0⟩
        lru_evaluation := ⟨[], 0, 0⟩ }
      (.rewriteDict "w") 0 rfl (by decide)).1 (by decide)).1

/-- C7 counterexample: one `get` on the `"evaluation"` namespace (a miss,
as its own memoizer's counter shows) leaves the hit/miss counters that
`stats` reports at zero — `stats` reads only the analysis memoizer's
counters, so it does not count every get across all namespaces. -/
theorem cache_stats_miss_not_counted :
    (get_cache_stats 0 (cacheGet .evaluation "k" 0 emptyCacheService).2).lru_cache_misses
        = 0 ∧
    (get_cache_stats 0 (cacheGet .evaluation "k" 0 emptyCacheService).2).lru_cache_hits
        = 0 ∧
    (cacheGet .evaluation "k" 0 emptyCacheService).2.lru_evaluation.misses = 1 ∧
    (cacheGet .evaluation "k" 0 emptyCacheService).1 = none := by
  decide

/-- C7 amended: `stats` reports the total entry count and the expired
count by a point-in-time scan, but its hit/miss counters are the analysis
memoizer's alone: an `"evaluation"`-namespace get leaves them unchanged,
an `"analysis"`-namespace get bumps their sum by one, and they are reset
(to 0 hits / 1 miss by the warm-up, resp. 0/0) by every `cache_analysis`
put or `clear_cache` — not only at process start. -/
theorem cache_stats_spec (st : CacheService) (k : String) (v : CacheVal)
    (now : Nat) :
    (get_cache_stats now st).cache_size = st.cache.length ∧
    (get_cache_stats now st).expired_entries =
      (st.cache.filter (fun p => is_expired p.2.timestamp now)).length ∧
    (get_cache_stats now (cacheGet .evaluation k now st).2).lru_cache_hits =
      (get_cache_stats now st).lru_cache_hits ∧
    (get_cache_stats now (cacheGet .evaluation k now st).2).lru_cache_misses =
      (get_cache_stats now st).lru_cache_misses ∧
    (get_cache_stats now (cacheGet .analysis k now st).2).lru_cache_hits +
      (get_cache_stats now (cacheGet .analysis k now st).2).lru_cache_misses =
      (get_cache_stats now st).lru_cache_hits +
        (get_cache_stats now st).lru_cache_misses + 1 ∧
    (get_cache_stats now (cachePut .analysis k v now st)).lru_cache_hits = 0 ∧
    (get_cache_stats now (cachePut .analysis k v now st)).lru_cache_misses = 1 ∧
    (get_cache_stats now (clear_cache none st)).lru_cache_hits = 0 ∧
    (get_cache_stats now (clear_cache none st)).lru_cache_misses = 0 := by
  refine ⟨rfl, rfl, ?_, ?_, ?_, ?_, ?_, rfl, rfl⟩
  · cases h : listGet st.lru_evaluation.entries k
    · rw [show cacheGet .evaluation k now st = get_cached_evaluation k now st from rfl,
          get_cached_evaluation_memo_none _ _ _ h]
      rfl
    · rw [show cacheGet .evaluation k now st = get_cached_evaluation k now st from rfl,
          get_cached_evaluation_memo_some _ _ _ _ h]
      rfl
  · cases h : listGet st.lru_evaluation.entries k
    · rw [show cacheGet .evaluation k now st = get_cached_evaluation k now st from rfl,
          get_cached_evaluation_memo_none _ _ _ h]
      rfl
    · rw [show cacheGet .evaluation k now st = get_cached_evaluation k now st from rfl,
          get_cached_evaluation_memo_some _ _ _ _ h]
      rfl
  · cases h : listGet st.lru_analysis.entries k
    · rw [show cacheGet .analysis k now st = get_cached_analysis k now st from rfl,
          get_cached_analysis_memo_none _ _ _ h]
      simp [get_cache_stats, lruInsert]
      omega
    · rw [show cacheGet .analysis k now st = get_cached_analysis k now st from rfl,
          get_cached_analysis_memo_some _ _ _ _ h]
      simp [get_cache_stats, lruHit]
      omega
  · rw [show cachePut .analysis k v now st = cache_analysis k v now st from rfl,
        cache_analysis_eq]
    rfl
  · rw [show cachePut .analysis k v now st = cache_analysis k v now st from rfl,
        cache_analysis_eq]
    rfl

/-- C10: the rewrite cache key (text, signature, keywords joined with
colons) and the evaluation cache key (original, rewritten, signature
joined with colons) coincide on distinct logical inputs and live in the
one shared `"evaluation"` namespace, so a rewrite lookup is served the
data an evaluation cached: after `evaluate_text("A", "B", "")` populates
the cache, `rewrite_text("A", "B", [])` answers `.ok ""` — the cached
evaluation dict's missing `"rewritten_text"` key — and not its own
collaborator's reply. The colon-joined key is not injective even within
one operation. -/
theorem cache_key_collision_cross_talk :
    rewriteCacheKey "A" "B" [] = evaluationCacheKey "A" "B" "" ∧
    rewriteCacheKey "A:B" "C" [] = rewriteCacheKey "A" "B:C" [] ∧
    (LLMService.rewrite_text (fun _ _ _ => .ok "FRESH REWRITE") "A" "B"
        (some []) 0
        (LLMService.evaluate_text (fun _ _ _ => .ok none) "A" "B" "" 0
          emptyCacheService).2).1
      = .ok "" := by
  refine ⟨rfl, rfl, ?_⟩
  rfl

/-- C1: a collaborator evaluation reply that is not valid JSON is
silently replaced by the fabricated default score dict —
`_parse_evaluation_result` maps a `json.JSONDecodeError` to default
scores with no error outlet, and `LLMService.evaluate_text` returns and
caches those defaults as a success. -/
theorem parse_failure_yields_default_scores :
    parse_evaluation_result none = defaultEvalScores ∧
    (LLMService.evaluate_text (fun _ _ _ => .ok none) "orig" "rew" "sig" 0
        emptyCacheService).1 = .ok (.evalDict defaultEvalScores) ∧
    listGet (LLMService.evaluate_text (fun _ _ _ => .ok none) "orig" "rew" "sig" 0
        emptyCacheService).2.cache
      (generate_key "evaluation" (evaluationCacheKey "orig" "rew" "sig"))
      = some ⟨.evalDict defaultEvalScores, 0⟩ := by
  exact ⟨rfl, rfl, by decide⟩

/-! ## Controller lemmas -/

/-- The hard-coded `rewrite_and_evaluate_text` construction passes every
required field with in-bounds scores, so pydantic accepts it. -/
theorem validate_rewriteEvalArgs :
    EvaluationResult.validate rewriteEvalArgs = .ok rewriteEvalResult := by
  decide

/-- The `evaluate_text` construction omits five required fields, so
pydantic rejects it. -/
theorem validate_evaluateTextArgs :
    EvaluationResult.validate evaluateTextArgs = .error .validation := by
  decide

/-- `evaluate_text` returns an `EVALUATION_ERROR` and leaves the
evaluations dict unchanged, for every input and collaborator outcome. -/
theorem evaluate_text_spec (collab : Collaborators) (req : EvaluationRequest)
    (now : Nat) (st : ControllerState) :
    (∃ e, (ToneController.evaluate_text collab req now st).1 = .error e ∧
       e.code = "EVALUATION_ERROR") ∧
    (ToneController.evaluate_text collab req now st).2.evaluations =
      st.evaluations := by
  cases h : collab.evaluate req.text req.rewritten req.signature with
  | error e =>
    refine ⟨⟨evaluationError e, ?_, rfl⟩, ?_⟩ <;>
      simp [ToneController.evaluate_text, h]
  | ok v =>
    refine ⟨⟨evaluationError "ValidationError", ?_, rfl⟩, ?_⟩ <;>
      simp [ToneController.evaluate_text, h, validate_evaluateTextArgs]

/-- `_get_or_create_brand` never touches the signature or evaluation
dicts and never decreases the fresh-id counter. -/
theorem get_or_create_brand_frame (brand_id brand_name : Option String)
    (now : Nat) (st : ControllerState) :
    (ToneController.get_or_create_brand brand_id brand_name now st).2.brand_signatures
      = st.brand_signatures ∧
    (ToneController.get_or_create_brand brand_id brand_name now st).2.evaluations
      = st.evaluations ∧
    st.nextId ≤
      (ToneController.get_or_create_brand brand_id brand_name now st).2.nextId := by
  unfold ToneController.get_or_create_brand
  by_cases h : pyTruthy brand_id = true
  · rw [if_pos h]
    cases h2 : listGet st.brands (brand_id.getD "") <;> simp
  · rw [if_neg h]
    simp

/-- A truthy given `brand_id` is the id of the brand the call resolves,
provided any brand stored under that key carries it as its `brand_id`
field (true of every brand the controller itself created). -/
theorem get_or_create_brand_id (b : String) (brand_name : Option String)
    (now : Nat) (st : ControllerState) (hbne : b ≠ "")
    (hkeys : ∀ info, listGet st.brands b = some info → info.brand_id = b) :
    (ToneController.get_or_create_brand (some b) brand_name now st).1.brand_id
      = b := by
  have ht : pyTruthy (some b) = true := by simp [pyTruthy, hbne]
  unfold ToneController.get_or_create_brand
  rw [if_pos ht]
  simp only [Option.getD]
  cases h2 : listGet st.brands b with
  | some info => simpa using hkeys info h2
  | none => simp

/-- Full behavior of the tail of `rewrite_and_evaluate_text` once the
signature is in hand: collaborator-call counts, frame over the signature
and brand dicts, evaluations written only on full success, and success
exactly when rewrite and evaluate both succeed. -/
theorem rewriteEvalRest_spec (collab : Collaborators) (req : TextRewriteRequest)
    (now : Nat) (st : ControllerState) (bi : BrandInfo) (sig : String)
    (aCalls : Nat) :
    (rewriteEvalRest collab req now st bi sig aCalls).analyzeCalls = aCalls ∧
    (rewriteEvalRest collab req now st bi sig aCalls).state.brand_signatures
      = st.brand_signatures ∧
    (rewriteEvalRest collab req now st bi sig aCalls).state.brands = st.brands ∧
    st.nextId ≤ (rewriteEvalRest collab req now st bi sig aCalls).state.nextId ∧
    ((∃ e, (rewriteEvalRest collab req now st bi sig aCalls).result = .error e) →
      (rewriteEvalRest collab req now st bi sig aCalls).state.evaluations
        = st.evaluations) ∧
    (∀ r, (rewriteEvalRest collab req now st bi sig aCalls).result = .ok r →
      (rewriteEvalRest collab req now st bi sig aCalls).state.evaluations
          = listSet st.evaluations st.nextId
              ⟨bi.brand_id, req.text, r.rewritten_text, r.result, now⟩ ∧
      r.evaluation_id = st.nextId ∧
      (rewriteEvalRest collab req now st bi sig aCalls).state.nextId
          = st.nextId + 1 ∧
      r.brand_info = bi ∧ r.original_text = req.text ∧ r.timestamp = now) ∧
    ((∃ r, (rewriteEvalRest collab req now st bi sig aCalls).result = .ok r) ↔
      (∃ rw, collab.rewrite req.text sig = .ok rw ∧
        ∃ ev, collab.evaluate req.text rw sig = .ok ev)) := by
  cases hrw : collab.rewrite req.text sig with
  | error e => simp [rewriteEvalRest, hrw]
  | ok rw =>
    cases hev : collab.evaluate req.text rw sig with
    | error e => simp [rewriteEvalRest, hrw, hev]
    | ok ev =>
      simp [rewriteEvalRest, hrw, hev, validate_rewriteEvalArgs]

/-- C9: for every input, collaborator outcome and state, the evaluate-only
handler fails with an `EVALUATION_ERROR` and stores no evaluation record:
the `EvaluationResult` it constructs omits five required fields, so the
pydantic validation error is raised inside the `try` block (before the
store) and re-reported as an evaluation failure; the operation can never
succeed. -/
theorem controller_evaluate_text_always_fails (collab : Collaborators)
    (req : EvaluationRequest) (now : Nat) (st : ControllerState) :
    (∃ e, (ToneController.evaluate_text collab req now st).1 = .error e ∧
       e.code = "EVALUATION_ERROR") ∧
    (ToneController.evaluate_text collab req now st).2.evaluations =
      st.evaluations ∧
    EvaluationResult.validate evaluateTextArgs = .error .validation :=
  ⟨(evaluate_text_spec collab req now st).1,
   (evaluate_text_spec collab req now st).2,
   validate_evaluateTextArgs⟩

/-- `rewrite_and_evaluate_text` when the resolved brand has a stored
signature: the analysis collaborator is bypassed. -/
theorem rewrite_and_evaluate_eq_some (collab : Collaborators)
    (req : TextRewriteRequest) (now : Nat) (st : ControllerState)
    (sd : SignatureData)
    (h : listGet
        (ToneController.get_or_create_brand req.brand_id req.brand_name now st).2.brand_signatures
        (ToneController.get_or_create_brand req.brand_id req.brand_name now st).1.brand_id
        = some sd) :
    ToneController.rewrite_and_evaluate_text collab req now st =
      rewriteEvalRest collab req now
        (ToneController.get_or_create_brand req.brand_id req.brand_name now st).2
        (ToneController.get_or_create_brand req.brand_id req.brand_name now st).1
        sd.signature 0 := by
  simp only [ToneController.rewrite_and_evaluate_text, h]

/-- `rewrite_and_evaluate_text` when no signature is stored and the
analysis collaborator fails: the whole run aborts there. -/
theorem rewrite_and_evaluate_eq_analysis_error (collab : Collaborators)
    (req : TextRewriteRequest) (now : Nat) (st : ControllerState) (e : String)
    (h : listGet
        (ToneController.get_or_create_brand req.brand_id req.brand_name now st).2.brand_signatures
        (ToneController.get_or_create_brand req.brand_id req.brand_name now st).1.brand_id
        = none)
    (ha : collab.analyze req.text = .error e) :
    ToneController.rewrite_and_evaluate_text collab req now st =
      { result := .error (rewriteEvalError e)
        state := (ToneController.get_or_create_brand req.brand_id req.brand_name now st).2
        analyzeCalls := 1, rewriteCalls := 0, evaluateCalls := 0 } := by
  simp only [ToneController.rewrite_and_evaluate_text, h, ha]

/-- `rewrite_and_evaluate_text` when no signature is stored and the
analysis collaborator succeeds: the fresh signature is stored before the
rewrite step runs. -/
theorem rewrite_and_evaluate_eq_analysis_ok (collab : Collaborators)
    (req : TextRewriteRequest) (now : Nat) (st : ControllerState) (s : String)
    (h : listGet
        (ToneController.get_or_create_brand req.brand_id req.brand_name now st).2.brand_signatures
        (ToneController.get_or_create_brand req.brand_id req.brand_name now st).1.brand_id
        = none)
    (ha : collab.analyze req.text = .ok s) :
    ToneController.rewrite_and_evaluate_text collab req now st =
      rewriteEvalRest collab req now
        { (ToneController.get_or_create_brand req.brand_id req.brand_name now st).2 with
          brand_signatures := listSet
            (ToneController.get_or_create_brand req.brand_id req.brand_name now st).2.brand_signatures
            (ToneController.get_or_create_brand req.brand_id req.brand_name now st).1.brand_id
            ⟨(ToneController.get_or_create_brand req.brand_id req.brand_name now st).1.brand_id,
             s, now, "1.0"⟩ }
        (ToneController.get_or_create_brand req.brand_id req.brand_name now st).1
        s 1 := by
  simp only [ToneController.rewrite_and_evaluate_text, h, ha]

/-- C3: a rewrite-and-evaluate call for a brand that already has a stored
signature invokes the analysis collaborator zero times, and the stored
signature for that brand after the call is the one stored before. -/
theorem signature_reused_when_present (collab : Collaborators)
    (req : TextRewriteRequest) (now : Nat) (st : ControllerState)
    (b : String) (sig : SignatureData)
    (hb : req.brand_id = some b) (hbne : b ≠ "")
    (hkeys : ∀ info, listGet st.brands b = some info → info.brand_id = b)
    (hsig : listGet st.brand_signatures b = some sig) :
    (ToneController.rewrite_and_evaluate_text collab req now st).analyzeCalls
      = 0 ∧
    listGet
      (ToneController.rewrite_and_evaluate_text collab req now st).state.brand_signatures
      b = some sig := by
  have hid : (ToneController.get_or_create_brand req.brand_id req.brand_name now st).1.brand_id
      = b := by
    rw [hb]; exact get_or_create_brand_id b req.brand_name now st hbne hkeys
  have hfr := get_or_create_brand_frame req.brand_id req.brand_name now st
  have hs2 : listGet
      (ToneController.get_or_create_brand req.brand_id req.brand_name now st).2.brand_signatures
      (ToneController.get_or_create_brand req.brand_id req.brand_name now st).1.brand_id
      = some sig := by
    rw [hid, hfr.1]; exact hsig
  rw [rewrite_and_evaluate_eq_some collab req now st sig hs2]
  have hrest := rewriteEvalRest_spec collab req now
    (ToneController.get_or_create_brand req.brand_id req.brand_name now st).2
    (ToneController.get_or_create_brand req.brand_id req.brand_name now st).1
    sig.signature 0
  refine ⟨hrest.1, ?_⟩
  rw [hrest.2.1, hfr.1]
  exact hsig

/-- C4: the composite operation aborts with an error as soon as a
collaborator fails, and a failed run leaves the evaluations dict exactly
as it was (no partial `Evaluation` is persisted); the signature dict
changes for a brand only when the analysis collaborator itself succeeded,
and then to the fully built `version "1.0"` record of its result; the run
returns a response exactly when the signature step, the rewrite and the
evaluation all succeeded. -/
theorem rewrite_and_evaluate_atomicity (collab : Collaborators)
    (req : TextRewriteRequest) (now : Nat) (st : ControllerState) :
    ((∃ e, (ToneController.rewrite_and_evaluate_text collab req now st).result
        = .error e) →
      (ToneController.rewrite_and_evaluate_text collab req now st).state.evaluations
        = st.evaluations) ∧
    (∀ b, listGet
        (ToneController.rewrite_and_evaluate_text collab req now st).state.brand_signatures b
        ≠ listGet st.brand_signatures b →
      ∃ s, collab.analyze req.text = .ok s ∧
        listGet
          (ToneController.rewrite_and_evaluate_text collab req now st).state.brand_signatures b
          = some ⟨b, s, now, "1.0"⟩) ∧
    ((∃ r, (ToneController.rewrite_and_evaluate_text collab req now st).result
        = .ok r) ↔
      (∃ s, signatureOutcome collab req now st = .ok s ∧
        ∃ rw, collab.rewrite req.text s = .ok rw ∧
          ∃ ev, collab.evaluate req.text rw s = .ok ev)) := by
  have hfr := get_or_create_brand_frame req.brand_id req.brand_name now st
  cases hsig : listGet
      (ToneController.get_or_create_brand req.brand_id req.brand_name now st).2.brand_signatures
      (ToneController.get_or_create_brand req.brand_id req.brand_name now st).1.brand_id with
  | some sd =>
    rw [rewrite_and_evaluate_eq_some collab req now st sd hsig]
    have hso : signatureOutcome collab req now st = .ok sd.signature := by
      simp only [signatureOutcome, hsig]
    have hrest := rewriteEvalRest_spec collab req now
      (ToneController.get_or_create_brand req.brand_id req.brand_name now st).2
      (ToneController.get_or_create_brand req.brand_id req.brand_name now st).1
      sd.signature 0
    refine ⟨fun he => ?_, fun b hne => ?_, ?_⟩
    · rw [hrest.2.2.2.2.1 he]
      exact hfr.2.1
    · rw [hrest.2.1, hfr.1] at hne
      exact absurd rfl hne
    · rw [hrest.2.2.2.2.2.2, hso]
      simp
  | none =>
    cases han : collab.analyze req.text with
    | error e =>
      rw [rewrite_and_evaluate_eq_analysis_error collab req now st e hsig han]
      have hso : signatureOutcome collab req now st = .error e := by
        simp only [signatureOutcome, hsig, han]
      refine ⟨fun _ => hfr.2.1, fun b hne => ?_, ?_⟩
      · rw [hfr.1] at hne
        exact absurd rfl hne
      · rw [hso]
        simp
    | ok s =>
      rw [rewrite_and_evaluate_eq_analysis_ok collab req now st s hsig han]
      have hso : signatureOutcome collab req now st = .ok s := by
        simp only [signatureOutcome, hsig, han]
      have hrest := rewriteEvalRest_spec collab req now
        { (ToneController.get_or_create_brand req.brand_id req.brand_name now st).2 with
          brand_signatures := listSet
            (ToneController.get_or_create_brand req.brand_id req.brand_name now st).2.brand_signatures
            (ToneController.get_or_create_brand req.brand_id req.brand_name now st).1.brand_id
            ⟨(ToneController.get_or_create_brand req.brand_id req.brand_name now st).1.brand_id,
             s, now, "1.0"⟩ }
        (ToneController.get_or_create_brand req.brand_id req.brand_name now st).1
        s 1
      refine ⟨fun he => ?_, fun b hne => ?_, ?_⟩
      · rw [hrest.2.2.2.2.1 he]
        exact hfr.2.1
      · rw [hrest.2.1] at hne ⊢
        by_cases hbeq : b =
            (ToneController.get_or_create_brand req.brand_id req.brand_name now st).1.brand_id
        · subst hbeq
          rw [listGet_listSet_self]
          exact ⟨s, rfl, rfl⟩
        · rw [listGet_listSet_ne _ _ _ _ hbeq, hfr.1] at hne
          exact absurd rfl hne
      · rw [hrest.2.2.2.2.2.2, hso]
        simp

/-- C3 applied at a concrete input: the brand `"acme"` already has a
stored signature, so the run makes zero analyze calls and leaves it. -/
theorem signature_reused_when_present_witness :
    (ToneController.rewrite_and_evaluate_text wCollab wReq 0
        { brand_signatures := [("acme", ⟨"acme", "OLD SIG", 7, "1.0"⟩)]
          evaluations := [], brands := [], nextId := 0 }).analyzeCalls = 0 ∧
    listGet (ToneController.rewrite_and_evaluate_text wCollab wReq 0
        { brand_signatures := [("acme", ⟨"acme", "OLD SIG", 7, "1.0"⟩)]
          evaluations := [], brands := [], nextId := 0 }).state.brand_signatures
      "acme" = some ⟨"acme", "OLD SIG", 7, "1.0"⟩ :=
  signature_reused_when_present wCollab wReq 0
    { brand_signatures := [("acme", ⟨"acme", "OLD SIG", 7, "1.0"⟩)]
      evaluations := [], brands := [], nextId := 0 }
    "acme" ⟨"acme", "OLD SIG", 7, "1.0"⟩ rfl (by decide)
    (fun info h => nomatch h) (by decide)

/-- C2 counterexample: with an unexpired cache entry stored under the
namespace-`"rewrite"` key built from the request text and the stored
signature, a rewrite-and-evaluate call still invokes the rewrite
collaborator once, returns the collaborator's text (not the cached one),
and leaves the LLM cache byte-for-byte unchanged — it neither consults
nor fills any cache (a run against an empty cache caches nothing
either). -/
theorem rewrite_cache_namespace_cex :
    (system_rewrite_and_evaluate wCollab wReq 0
        { controller :=
            { brand_signatures := [("acme", ⟨"acme", "SIG", 0, "1.0"⟩)]
              evaluations := [], brands := [], nextId := 0 }
          llmCache :=
            { cache := [(generate_key "rewrite" (wReq.text ++ ":" ++ "SIG"),
                ⟨.rewriteDict "CACHED", 0⟩)]
              lru_analysis := ⟨[], 0, 0⟩
              lru_evaluation := ⟨[], 0, 0⟩ } }).1.rewriteCalls = 1 ∧
    (system_rewrite_and_evaluate wCollab wReq 0
        { controller :=
            { brand_signatures := [("acme", ⟨"acme", "SIG", 0, "1.0"⟩)]
              evaluations := [], brands := [], nextId := 0 }
          llmCache :=
            { cache := [(generate_key "rewrite" (wReq.text ++ ":" ++ "SIG"),
                ⟨.rewriteDict "CACHED", 0⟩)]
              lru_analysis := ⟨[], 0, 0⟩
              lru_evaluation := ⟨[], 0, 0⟩ } }).1.result = .ok wResp ∧
    (system_rewrite_and_evaluate wCollab wReq 0
        { controller :=
            { brand_signatures := [("acme", ⟨"acme", "SIG", 0, "1.0"⟩)]
              evaluations := [], brands := [], nextId := 0 }
          llmCache :=
            { cache := [(generate_key "rewrite" (wReq.text ++ ":" ++ "SIG"),
                ⟨.rewriteDict "CACHED", 0⟩)]
              lru_analysis := ⟨[], 0, 0⟩
              lru_evaluation := ⟨[], 0, 0⟩ } }).2.llmCache =
      { cache := [(generate_key "rewrite" (wReq.text ++ ":" ++ "SIG"),
          ⟨.rewriteDict "CACHED", 0⟩)]
        lru_analysis := ⟨[], 0, 0⟩
        lru_evaluation := ⟨[], 0, 0⟩ } ∧
    (system_rewrite_and_evaluate wCollab wReq 0
        { controller :=
            { brand_signatures := [("acme", ⟨"acme", "SIG", 0, "1.0"⟩)]
              evaluations := [], brands := [], nextId := 0 }
          llmCache := emptyCacheService }).2.llmCache = emptyCacheService := by
  exact ⟨by decide, by decide, rfl, rfl⟩

/-- C2 amended: the cached rewrite/evaluate wrappers live in `LLMService`,
not in the rewrite-and-evaluate flow. `LLMService.rewrite_text` consults
the shared `"evaluation"` namespace under the raw key
`text:signature:joined-keywords`; on a hit the collaborator is irrelevant
(any two chains give the same outcome), on a miss the stripped reply is
returned and cached under that same key. `LLMService.evaluate_text` does
likewise under `original:rewritten:signature`. The controller's
rewrite-and-evaluate leaves the LLM cache untouched. -/
theorem rewrite_evaluate_cache_behavior
    (chainA chainB : String → String → String → Except String String)
    (echainA echainB : String → String → String → Except String (Option EvalParsed))
    (text sig : String) (kw : Option (List String)) (orig rew : String)
    (now : Nat) (st : CacheService) (collab : Collaborators)
    (req : TextRewriteRequest) (sys : SystemState) :
    ((get_cached_evaluation (rewriteCacheKey text sig (kw.getD [])) now st).1.isSome →
      LLMService.rewrite_text chainA text sig kw now st
        = LLMService.rewrite_text chainB text sig kw now st) ∧
    (∀ content,
      (get_cached_evaluation (rewriteCacheKey text sig (kw.getD [])) now st).1 = none →
      chainA text sig (String.intercalate ", " (kw.getD [])) = .ok content →
      (LLMService.rewrite_text chainA text sig kw now st).1 = .ok content.trim ∧
      listGet (LLMService.rewrite_text chainA text sig kw now st).2.cache
        (generate_key "evaluation" (rewriteCacheKey text sig (kw.getD [])))
        = some ⟨.rewriteDict content.trim, now⟩) ∧
    ((get_cached_evaluation (evaluationCacheKey orig rew sig) now st).1.isSome →
      LLMService.evaluate_text echainA orig rew sig now st
        = LLMService.evaluate_text echainB orig rew sig now st) ∧
    (∀ decoded,
      (get_cached_evaluation (evaluationCacheKey orig rew sig) now st).1 = none →
      echainA orig rew sig = .ok decoded →
      (LLMService.evaluate_text echainA orig rew sig now st).1
        = .ok (.evalDict (parse_evaluation_result decoded)) ∧
      listGet (LLMService.evaluate_text echainA orig rew sig now st).2.cache
        (generate_key "evaluation" (evaluationCacheKey orig rew sig))
        = some ⟨.evalDict (parse_evaluation_result decoded), now⟩) ∧
    (system_rewrite_and_evaluate collab req now sys).2.llmCache = sys.llmCache := by
  refine ⟨?_, ?_, ?_, ?_, rfl⟩
  · intro hs
    cases h : (get_cached_evaluation (rewriteCacheKey text sig (kw.getD [])) now st).1 with
    | none => rw [h] at hs; cases hs
    | some d => simp [LLMService.rewrite_text, h]
  · intro content hmiss hok
    refine ⟨?_, ?_⟩
    · simp [LLMService.rewrite_text, hmiss, hok]
    · simp [LLMService.rewrite_text, hmiss, hok, cache_evaluation_eq,
            listGet_listSet_self]
  · intro hs
    cases h : (get_cached_evaluation (evaluationCacheKey orig rew sig) now st).1 with
    | none => rw [h] at hs; cases hs
    | some d => simp [LLMService.evaluate_text, h]
  · intro decoded hmiss hok
    refine ⟨?_, ?_⟩
    · simp [LLMService.evaluate_text, hmiss, hok]
    · simp [LLMService.evaluate_text, hmiss, hok, cache_evaluation_eq,
            listGet_listSet_self]

/-- `evaluate_text` never decreases the fresh-id counter and never
changes the evaluations dict. -/
theorem evaluate_text_state (collab : Collaborators) (req : EvaluationRequest)
    (now : Nat) (st : ControllerState) :
    (ToneController.evaluate_text collab req now st).2.evaluations
      = st.evaluations ∧
    st.nextId ≤ (ToneController.evaluate_text collab req now st).2.nextId := by
  cases h : collab.evaluate req.text req.rewritten req.signature with
  | error e => simp [ToneController.evaluate_text, h]
  | ok v => simp [ToneController.evaluate_text, h, validate_evaluateTextArgs]

/-- Across one `rewrite_and_evaluate_text` run the fresh-id counter only
grows, and the evaluations dict is either untouched or extended at one
fresh key. -/
theorem rewrite_and_evaluate_changes (collab : Collaborators)
    (req : TextRewriteRequest) (now : Nat) (st : ControllerState) :
    st.nextId ≤ (ToneController.rewrite_and_evaluate_text collab req now st).state.nextId ∧
    ((ToneController.rewrite_and_evaluate_text collab req now st).state.evaluations
        = st.evaluations ∨
      ∃ m r, st.nextId ≤ m ∧
        m < (ToneController.rewrite_and_evaluate_text collab req now st).state.nextId ∧
        (ToneController.rewrite_and_evaluate_text collab req now st).state.evaluations
          = listSet st.evaluations m r) := by
  have hfr := get_or_create_brand_frame req.brand_id req.brand_name now st
  cases hsig : listGet
      (ToneController.get_or_create_brand req.brand_id req.brand_name now st).2.brand_signatures
      (ToneController.get_or_create_brand req.brand_id req.brand_name now st).1.brand_id with
  | some sd =>
    rw [rewrite_and_evaluate_eq_some collab req now st sd hsig]
    have hrest := rewriteEvalRest_spec collab req now
      (ToneController.get_or_create_brand req.brand_id req.brand_name now st).2
      (ToneController.get_or_create_brand req.brand_id req.brand_name now st).1
      sd.signature 0
    cases hres : (rewriteEvalRest collab req now
        (ToneController.get_or_create_brand req.brand_id req.brand_name now st).2
        (ToneController.get_or_create_brand req.brand_id req.brand_name now st).1
        sd.signature 0).result with
    | error e =>
      refine ⟨le_trans hfr.2.2 hrest.2.2.2.1, Or.inl ?_⟩
      rw [hrest.2.2.2.2.1 ⟨e, hres⟩]
      exact hfr.2.1
    | ok r =>
      obtain ⟨hev, _, hnext, _, _, _⟩ := hrest.2.2.2.2.2.1 r hres
      refine ⟨le_trans hfr.2.2 hrest.2.2.2.1, Or.inr ?_⟩
      refine ⟨(ToneController.get_or_create_brand req.brand_id req.brand_name now st).2.nextId,
        ⟨(ToneController.get_or_create_brand req.brand_id req.brand_name now st).1.brand_id,
         req.text, r.rewritten_text, r.result, now⟩, hfr.2.2, by omega, ?_⟩
      rw [hev, hfr.2.1]
  | none =>
    cases han : collab.analyze req.text with
    | error e =>
      rw [rewrite_and_evaluate_eq_analysis_error collab req now st e hsig han]
      exact ⟨hfr.2.2, Or.inl hfr.2.1⟩
    | ok s =>
      rw [rewrite_and_evaluate_eq_analysis_ok collab req now st s hsig han]
      have hrest := rewriteEvalRest_spec collab req now
        { (ToneController.get_or_create_brand req.brand_id req.brand_name now st).2 with
          brand_signatures := listSet
            (ToneController.get_or_create_brand req.brand_id req.brand_name now st).2.brand_signatures
            (ToneController.get_or_create_brand req.brand_id req.brand_name now st).1.brand_id
            ⟨(ToneController.get_or_create_brand req.brand_id req.brand_name now st).1.brand_id,
             s, now, "1.0"⟩ }
        (ToneController.get_or_create_brand req.brand_id req.brand_name now st).1
        s 1
      cases hres : (rewriteEvalRest collab req now
          { (ToneController.get_or_create_brand req.brand_id req.brand_name now st).2 with
            brand_signatures := listSet
              (ToneController.get_or_create_brand req.brand_id req.brand_name now st).2.brand_signatures
              (ToneController.get_or_create_brand req.brand_id req.brand_name now st).1.brand_id
              ⟨(ToneController.get_or_create_brand req.brand_id req.brand_name now st).1.brand_id,
               s, now, "1.0"⟩ }
          (ToneController.get_or_create_brand req.brand_id req.brand_name now st).1
          s 1).result with
      | error e =>
        refine ⟨le_trans hfr.2.2 hrest.2.2.2.1, Or.inl ?_⟩
        rw [hrest.2.2.2.2.1 ⟨e, hres⟩]
        exact hfr.2.1
      | ok r =>
        obtain ⟨hev, _, hnext, _, _, _⟩ := hrest.2.2.2.2.2.1 r hres
        refine ⟨le_trans hfr.2.2 hrest.2.2.2.1, Or.inr ?_⟩
        refine ⟨(ToneController.get_or_create_brand req.brand_id req.brand_name now st).2.nextId,
          ⟨(ToneController.get_or_create_brand req.brand_id req.brand_name now st).1.brand_id,
           req.text, r.rewritten_text, r.result, now⟩, hfr.2.2,
          by dsimp only at hnext ⊢; omega, ?_⟩
        rw [hev, hfr.2.1]

/-- Every exposed operation only grows the fresh-id counter and either
leaves the evaluations dict alone or extends it at one fresh key. -/
theorem applyOp_changes (op : ControllerOp) (st : ControllerState) :
    st.nextId ≤ (applyOp op st).nextId ∧
    ((applyOp op st).evaluations = st.evaluations ∨
      ∃ m r, st.nextId ≤ m ∧ m < (applyOp op st).nextId ∧
        (applyOp op st).evaluations = listSet st.evaluations m r) := by
  cases op with
  | evaluateTextOp collab req now =>
    exact ⟨(evaluate_text_state collab req now st).2,
      Or.inl (evaluate_text_state collab req now st).1⟩
  | storeSignatureOp b s now =>
    exact ⟨le_refl _, Or.inl rfl⟩
  | rewriteAndEvaluateOp collab req now =>
    exact rewrite_and_evaluate_changes collab req now st
  | getEvaluationOp i => exact ⟨le_refl _, Or.inl rfl⟩
  | getSignatureOp b => exact ⟨le_refl _, Or.inl rfl⟩

/-- A stored evaluation whose id predates the current counter survives
any sequence of exposed operations unchanged. -/
theorem applyOps_lookup (ops : List ControllerOp) :
    ∀ (st : ControllerState) (id : Nat) (r : EvalRecord),
      id < st.nextId → listGet st.evaluations id = some r →
      listGet (applyOps ops st).evaluations id = some r ∧
        id < (applyOps ops st).nextId := by
  induction ops with
  | nil => exact fun st id r h1 h2 => ⟨h2, h1⟩
  | cons op t ih =>
    intro st id r h1 h2
    have hop := applyOp_changes op st
    have hstep : listGet (applyOp op st).evaluations id = some r := by
      cases hop.2 with
      | inl he => rw [he]; exact h2
      | inr hex =>
        obtain ⟨m, rec, hm1, _, he⟩ := hex
        rw [he, listGet_listSet_ne _ _ _ _ (by omega)]
        exact h2
    have h1n : id < (applyOp op st).nextId := lt_of_lt_of_le h1 hop.1
    have := ih (applyOp op st) id r h1n hstep
    simpa [applyOps, List.foldl] using this

/-- Every successful `rewrite_and_evaluate_text` run stores, under the
fresh id it returns, exactly the record its response reports. -/
theorem rewrite_and_evaluate_ok_spec (collab : Collaborators)
    (req : TextRewriteRequest) (now : Nat) (st : ControllerState)
    (resp : TextRewriteResponse)
    (hok : (ToneController.rewrite_and_evaluate_text collab req now st).result
      = .ok resp) :
    resp.original_text = req.text ∧ resp.timestamp = now ∧
    resp.evaluation_id <
      (ToneController.rewrite_and_evaluate_text collab req now st).state.nextId ∧
    listGet (ToneController.rewrite_and_evaluate_text collab req now st).state.evaluations
        resp.evaluation_id
      = some ⟨resp.brand_info.brand_id, req.text, resp.rewritten_text,
              resp.result, now⟩ := by
  cases hsig : listGet
      (ToneController.get_or_create_brand req.brand_id req.brand_name now st).2.brand_signatures
      (ToneController.get_or_create_brand req.brand_id req.brand_name now st).1.brand_id with
  | some sd =>
    rw [rewrite_and_evaluate_eq_some collab req now st sd hsig] at hok ⊢
    have hrest := rewriteEvalRest_spec collab req now
      (ToneController.get_or_create_brand req.brand_id req.brand_name now st).2
      (ToneController.get_or_create_brand req.brand_id req.brand_name now st).1
      sd.signature 0
    obtain ⟨hev, hid, hnext, hbi, horig, hts⟩ := hrest.2.2.2.2.2.1 resp hok
    refine ⟨horig, hts, by omega, ?_⟩
    rw [hev, hid, hbi]
    exact listGet_listSet_self _ _ _
  | none =>
    cases han : collab.analyze req.text with
    | error e =>
      rw [rewrite_and_evaluate_eq_analysis_error collab req now st e hsig han]
        at hok
      exact absurd hok (by simp)
    | ok s =>
      rw [rewrite_and_evaluate_eq_analysis_ok collab req now st s hsig han]
        at hok ⊢
      have hrest := rewriteEvalRest_spec collab req now
        { (ToneController.get_or_create_brand req.brand_id req.brand_name now st).2 with
          brand_signatures := listSet
            (ToneController.get_or_create_brand req.brand_id req.brand_name now st).2.brand_signatures
            (ToneController.get_or_create_brand req.brand_id req.brand_name now st).1.brand_id
            ⟨(ToneController.get_or_create_brand req.brand_id req.brand_name now st).1.brand_id,
             s, now, "1.0"⟩ }
        (ToneController.get_or_create_brand req.brand_id req.brand_name now st).1
        s 1
      obtain ⟨hev, hid, hnext, hbi, horig, hts⟩ := hrest.2.2.2.2.2.1 resp hok
      refine ⟨horig, hts, by dsimp only at hnext hid ⊢; omega, ?_⟩
      rw [hev, hid, hbi]
      exact listGet_listSet_self _ _ _

/-- C8: evaluation records are append-only and immutable: for every
successful rewrite-and-evaluate call, a `get_evaluation` of the returned
id — after any further sequence of exposed controller operations —
returns the stored record with the response's own brand id, original
text, rewritten text and result (no expiry, no update, no delete). -/
theorem evaluation_records_immutable (collab : Collaborators)
    (req : TextRewriteRequest) (now : Nat) (st : ControllerState)
    (ops : List ControllerOp) (resp : TextRewriteResponse)
    (hok : (ToneController.rewrite_and_evaluate_text collab req now st).result
      = .ok resp) :
    ToneController.get_evaluation resp.evaluation_id
        (applyOps ops
          (ToneController.rewrite_and_evaluate_text collab req now st).state)
      = .ok { evaluation_id := resp.evaluation_id
              brand_id := resp.brand_info.brand_id
              timestamp := resp.timestamp
              original_text := resp.original_text
              rewritten_text := resp.rewritten_text
              result := resp.result } := by
  obtain ⟨horig, hts, hlt, hget⟩ :=
    rewrite_and_evaluate_ok_spec collab req now st resp hok
  obtain ⟨hget2, _⟩ := applyOps_lookup ops
    (ToneController.rewrite_and_evaluate_text collab req now st).state
    resp.evaluation_id _ hlt hget
  simp only [ToneController.get_evaluation, hget2]
  rw [horig, hts]

/-- C8 applied at a concrete input: one successful run from a fresh
controller, an empty further trace, and the `get` of the returned id. -/
theorem evaluation_records_immutable_witness :
    ToneController.get_evaluation 0
        (applyOps []
          (ToneController.rewrite_and_evaluate_text wCollab wReq 0
            initialControllerState).state)
      = .ok { evaluation_id := 0, brand_id := "acme", timestamp := 0
              original_text := wReq.text, rewritten_text := "REW"
              result := rewriteEvalResult } :=
  evaluation_records_immutable wCollab wReq 0 initialControllerState [] wResp
    (by decide)

end ToneOfVoice
